import Mathlib

/-!
Verification of the repository `python_docker_operator`.

This file is a shallow embedding of `python_docker_operator/interface.py`
and `python_docker_operator/operator.py`.

Modelling conventions:

* Python strings are `String`; the Python `upper()` method is `py_upper`
  (character-wise ASCII uppercase, agreeing with `String.toUpper` but
  written over `List.map` so the kernel can evaluate it); the Python
  `join` method is `py_join`.
* A Python value that may be `None` is an `Option`; `PyVal` embeds the
  dynamically typed values that flow into `str(value)`.
* The process environment (`os.environ`) is passed explicitly as a
  function `String → Option String`.
* A Python dict built by repeated `{**a, **b}` merges is an
  insertion-ordered association list (`Dict`); `Dict.get` returns the
  value of the LAST binding of a key, which is exactly the value the
  Python dict holds after the corresponding sequence of merges.
* Exceptions are `Except PyError`; datetimes are `Datetime` with an
  optional UTC offset in minutes.
-/

namespace PythonDockerOperator

/-- Error values raised by the interface code.  `MissingVariable` models the
`ValueError` raised by `read_env` (message: No environment variable ...
found); the spec calls this error kind MissingVariable.  `InvalidIsoformat`
models the `ValueError` raised by `datetime.fromisoformat` on a string it
cannot parse. -/
inductive PyError where
  | MissingVariable : String → PyError
  | InvalidIsoformat : String → PyError
  deriving DecidableEq, Repr

/-- A Python dict from canonical environment names to string values, as an
insertion-ordered association list: later entries are later writes. -/
abbrev Dict : Type := List (String × String)

/-- Lookup in a `Dict`: the LAST binding of a key wins, mirroring the value a
Python dict holds for that key after the merges that produced the list. -/
def Dict.get : Dict → String → Option String
  | [], _ => none
  | (k', v) :: rest, k =>
    match Dict.get rest k with
    | some v' => some v'
    | none => if k' = k then some v else none

/-- The Python dict-merge `{**a, **b}`: all entries of `a` followed by all
entries of `b`; on key collision `Dict.get` yields the value from `b`. -/
def Dict.merge (a b : Dict) : Dict := a ++ b

theorem Dict.get_append (a b : Dict) (k : String) :
    Dict.get (a ++ b) k = match Dict.get b k with
      | some v => some v
      | none => Dict.get a k := by
  induction a with
  | nil =>
    simp only [List.nil_append]
    cases hb : Dict.get b k with
    | some v => simp
    | none => simp [Dict.get]
  | cons hd tl ih =>
    obtain ⟨k', v⟩ := hd
    simp only [List.cons_append]
    rw [Dict.get, ih]
    cases hb : Dict.get b k <;> cases ht : Dict.get tl k <;>
      simp [Dict.get, ht]

theorem Dict.get_merge (a b : Dict) (k : String) :
    Dict.get (Dict.merge a b) k = match Dict.get b k with
      | some v => some v
      | none => Dict.get a k :=
  Dict.get_append a b k

theorem Dict.get_single (k v k' : String) :
    Dict.get [(k, v)] k' = if k = k' then some v else none := by
  simp [Dict.get]

theorem Dict.get_singleton (k v : String) : Dict.get [(k, v)] k = some v := by
  simp [Dict.get]

theorem Dict.get_merge_none (a b : Dict) (k : String)
    (ha : Dict.get a k = none) (hb : Dict.get b k = none) :
    Dict.get (Dict.merge a b) k = none := by
  rw [Dict.get_merge, hb]
  exact ha

theorem Dict.get_append_isSome (a b : Dict) (k : String)
    (h : (Dict.get b k).isSome) : Dict.get (a ++ b) k = Dict.get b k := by
  rw [Dict.get_append]
  cases hb : Dict.get b k with
  | some v => simp
  | none => rw [hb] at h; simp at h

/-- Folding dict-merges of provider outputs over a list of identifiers
appends all the produced entries, in list order, after the initial map. -/
theorem foldl_merge_eq_append {α : Type} (f : α → Dict) (l : List α) (e : Dict) :
    l.foldl (fun e x => Dict.merge e (f x)) e = e ++ (l.map f).flatten := by
  induction l generalizing e with
  | nil => simp
  | cons x xs ih =>
    rw [List.foldl_cons, ih, List.map_cons, List.flatten_cons]
    simp [Dict.merge, List.append_assoc]

theorem foldl_merge_get_none {α : Type} (f : α → Dict) (key : String)
    (hf : ∀ x, Dict.get (f x) key = none) (l : List α) :
    ∀ e : Dict, Dict.get e key = none →
      Dict.get (l.foldl (fun e x => Dict.merge e (f x)) e) key = none := by
  induction l with
  | nil => intro e he; exact he
  | cons x xs ih =>
    intro e he
    rw [List.foldl_cons]
    exact ih _ (Dict.get_merge_none _ _ _ he (hf x))

/-- Model of the Python `upper()` string method: uppercase each character.
Agrees with `String.toUpper` (which is `String.map Char.toUpper`) but is
stated over the underlying character list so that proofs can evaluate it. -/
def py_upper (s : String) : String := ⟨s.data.map Char.toUpper⟩

/-- Model of the Python `join` string method, `delim.join(parts)`. -/
def py_join (delim : String) : List String → String
  | [] => ""
  | [s] => s
  | s :: rest => s ++ delim ++ py_join delim rest

/-- `EnvironmentInterface` (interface.py, lines 20 to 40).  `ENV_PREFIX` is
the class attribute set by each subclass and `env_middle` models the
instance attribute `_env_middle`. -/
structure EnvironmentInterface where
  ENV_PREFIX : String
  env_middle : String
  deriving DecidableEq, Repr

/-- interface.py line 22: `ENV_DELIMITER` is the two-character string `__`. -/
def ENV_DELIMITER : String := "__"

/-- interface.py lines 25 and 26: join `ENV_PREFIX`, the upper-cased middle
part and the upper-cased variable name with `ENV_DELIMITER`. -/
def env_name (i : EnvironmentInterface) (variable_name : String) : String :=
  py_join ENV_DELIMITER [i.ENV_PREFIX, py_upper i.env_middle, py_upper variable_name]

/-- interface.py lines 28 to 36.  `os.environ` is the explicit argument
`environ`.  Python evaluates `if env:` on the result of
`os.environ.get(env_name, None)`, so both an absent variable (`None`) and a
present-but-empty string take the `else` branch and raise. -/
def read_env (environ : String → Option String) (i : EnvironmentInterface)
    (variable_name : String) : Except PyError String :=
  match environ (env_name i variable_name) with
  | some v => if v = "" then .error (.MissingVariable (env_name i variable_name)) else .ok v
  | none => .error (.MissingVariable (env_name i variable_name))

/-- `env_name` unfolded to plain concatenation. -/
theorem env_name_eq (i : EnvironmentInterface) (v : String) :
    env_name i v = i.ENV_PREFIX ++ "__" ++ py_upper i.env_middle ++ "__" ++ py_upper v := by
  show py_join ENV_DELIMITER [i.ENV_PREFIX, py_upper i.env_middle, py_upper v] = _
  simp only [py_join, ENV_DELIMITER]
  apply String.ext
  simp [String.data_append]

theorem read_env_some (environ : String → Option String) (i : EnvironmentInterface)
    (v s : String) (hp : environ (env_name i v) = some s) (hne : s ≠ "") :
    read_env environ i v = .ok s := by
  unfold read_env
  rw [hp]
  simp [hne]

/-- Model of `datetime.datetime` (and of the pendulum datetimes Airflow puts
in the run context): calendar fields plus an optional UTC offset in
minutes.  A timezone-naive datetime has `utcoffset = none`. -/
structure Datetime where
  year : Nat
  month : Nat
  day : Nat
  hour : Nat
  minute : Nat
  second : Nat
  microsecond : Nat
  utcoffset : Option Int
  deriving DecidableEq, Repr

/-- Fixed-width zero-padded decimal rendering (Python `%0*d`), most
significant digit first; used by `isoformat`. -/
def encodeFixed : Nat → Nat → List Char
  | 0, _ => []
  | w + 1, n => Char.ofNat (48 + n / 10 ^ w % 10) :: encodeFixed w n

/-- Read exactly `w` decimal digits, accumulating their value; used by
`fromisoformat`. -/
def decodeFixed : Nat → Nat → List Char → Option (Nat × List Char)
  | 0, acc, s => some (acc, s)
  | w + 1, acc, s =>
    match s with
    | [] => none
    | c :: rest => if c.isDigit then decodeFixed w (acc * 10 + (c.toNat - 48)) rest else none

theorem char_digit_spec (k : Nat) (hk : k < 10) :
    (Char.ofNat (48 + k)).isDigit = true ∧ (Char.ofNat (48 + k)).toNat - 48 = k := by
  interval_cases k <;> exact ⟨rfl, rfl⟩

theorem decodeFixed_encodeFixed (w : Nat) :
    ∀ (acc n : Nat) (t : List Char),
      decodeFixed w acc (encodeFixed w n ++ t) = some (acc * 10 ^ w + n % 10 ^ w, t) := by
  induction w with
  | zero => intro acc n t; simp [decodeFixed, encodeFixed, Nat.mod_one]
  | succ w ih =>
    intro acc n t
    obtain ⟨h1, h2⟩ := char_digit_spec (n / 10 ^ w % 10) (Nat.mod_lt _ (by norm_num))
    simp only [encodeFixed, List.cons_append, decodeFixed, h1, if_true, h2, ih]
    rw [Nat.pow_succ, Nat.mod_mul]
    ring_nf

/-- Gregorian leap-year test, as in the Python `calendar`/`datetime`
modules. -/
def isLeapYear (y : Nat) : Bool := y % 4 == 0 && (y % 100 != 0 || y % 400 == 0)

def daysInMonth (y m : Nat) : Nat :=
  if m = 2 then (if isLeapYear y then 29 else 28)
  else if m = 4 ∨ m = 6 ∨ m = 9 ∨ m = 11 then 30
  else 31

/-- The range checks the `datetime.datetime` constructor performs (and hence
`fromisoformat` enforces): calendar validity, microseconds below one
million, and a UTC offset strictly between minus and plus 24 hours. -/
def Datetime.validB (d : Datetime) : Bool :=
  decide (1 ≤ d.year) && decide (d.year ≤ 9999) &&
  decide (1 ≤ d.month) && decide (d.month ≤ 12) &&
  decide (1 ≤ d.day) && decide (d.day ≤ daysInMonth d.year d.month) &&
  decide (d.hour ≤ 23) && decide (d.minute ≤ 59) && decide (d.second ≤ 59) &&
  decide (d.microsecond ≤ 999999) &&
  d.utcoffset.all fun o => decide (o.natAbs ≤ 1439)

/-- The fractional-seconds part of `isoformat`: empty when the microsecond
field is zero, otherwise a dot and six digits (Python timespec auto). -/
def fracPart (us : Nat) : List Char :=
  if us = 0 then [] else '.' :: encodeFixed 6 us

/-- The UTC-offset part of `isoformat`: empty for a naive datetime,
otherwise a sign, two hour digits, a colon and two minute digits. -/
def offsetPart : Option Int → List Char
  | none => []
  | some off =>
      (if off < 0 then '-' else '+') ::
        (encodeFixed 2 (off.natAbs / 60) ++ (':' :: encodeFixed 2 (off.natAbs % 60)))

/-- Model of the `isoformat`/`__str__` rendering of an aware (pendulum)
datetime, e.g. `2024-01-15T08:30:00+00:00`: the ISO-8601 layout that
Python `datetime.fromisoformat` is documented to invert.  (Plain
`datetime.__str__` uses a space as separator; `fromisoformat` accepts any
single separator character, so the round trip below is insensitive to
that choice.) -/
def isoformatList (d : Datetime) : List Char :=
  encodeFixed 4 d.year ++ ('-' :: (encodeFixed 2 d.month ++ ('-' :: (encodeFixed 2 d.day ++
    ('T' :: (encodeFixed 2 d.hour ++ (':' :: (encodeFixed 2 d.minute ++ (':' ::
      (encodeFixed 2 d.second ++ (fracPart d.microsecond ++ offsetPart d.utcoffset)))))))))))

def isoformat (d : Datetime) : String := ⟨isoformatList d⟩

def expectChar (c : Char) : List Char → Option (List Char)
  | [] => none
  | x :: r => if x = c then some r else none

/-- `fromisoformat` accepts any single character as the date/time
separator. -/
def skipSep : List Char → Option (List Char)
  | [] => none
  | _ :: r => some r

def parseFrac : List Char → Option (Nat × List Char)
  | '.' :: r => decodeFixed 6 0 r
  | s => some (0, s)

def parseOffset : List Char → Option (Option Int × List Char)
  | '+' :: r =>
    (decodeFixed 2 0 r).bind fun p =>
    (expectChar ':' p.2).bind fun r2 =>
    (decodeFixed 2 0 r2).bind fun q =>
    some (some ((p.1 : Int) * 60 + q.1), q.2)
  | '-' :: r =>
    (decodeFixed 2 0 r).bind fun p =>
    (expectChar ':' p.2).bind fun r2 =>
    (decodeFixed 2 0 r2).bind fun q =>
    some (some (-((p.1 : Int) * 60 + q.1)), q.2)
  | s => some (none, s)

/-- Model of `datetime.fromisoformat` (Python 3.10 semantics: the inverse of
`isoformat`): fixed-width date and time fields, any single separator
character, an optional 6-digit fraction, an optional signed HH:MM offset,
then the constructor range checks.  `none` models the raised
`ValueError`. -/
def fromisoformatList (s : List Char) : Option Datetime :=
  (decodeFixed 4 0 s).bind fun py =>
  (expectChar '-' py.2).bind fun s1 =>
  (decodeFixed 2 0 s1).bind fun pmo =>
  (expectChar '-' pmo.2).bind fun s2 =>
  (decodeFixed 2 0 s2).bind fun pd =>
  (skipSep pd.2).bind fun s3 =>
  (decodeFixed 2 0 s3).bind fun ph =>
  (expectChar ':' ph.2).bind fun s4 =>
  (decodeFixed 2 0 s4).bind fun pmi =>
  (expectChar ':' pmi.2).bind fun s5 =>
  (decodeFixed 2 0 s5).bind fun pse =>
  (parseFrac pse.2).bind fun pus =>
  (parseOffset pus.2).bind fun poff =>
  match poff.2 with
  | [] =>
    let dt : Datetime := ⟨py.1, pmo.1, pd.1, ph.1, pmi.1, pse.1, pus.1, poff.1⟩
    if dt.validB then some dt else none
  | _ => none

def fromisoformat (s : String) : Option Datetime := fromisoformatList s.data

theorem expectChar_same (c : Char) (r : List Char) : expectChar c (c :: r) = some r := by
  simp [expectChar]

theorem skipSep_cons (c : Char) (r : List Char) : skipSep (c :: r) = some r := rfl

theorem parseOffset_offsetPart (off : Option Int)
    (h : off.all (fun o => decide (o.natAbs ≤ 1439)) = true) :
    parseOffset (offsetPart off) = some (off, []) := by
  cases off with
  | none => rfl
  | some o =>
    simp only [Option.all_some, decide_eq_true_eq] at h
    have h60 : o.natAbs / 60 < 100 := by omega
    have h60m : o.natAbs % 60 < 100 := by omega
    by_cases ho : o < 0
    · simp only [offsetPart, if_pos ho]
      show parseOffset ('-' :: _) = _
      rw [parseOffset]
      rw [show encodeFixed 2 (o.natAbs % 60) = encodeFixed 2 (o.natAbs % 60) ++ [] from
        (List.append_nil _).symm]
      simp only [decodeFixed_encodeFixed, Option.some_bind, Nat.zero_mul, Nat.zero_add,
        Nat.mod_eq_of_lt h60, Nat.mod_eq_of_lt h60m, expectChar_same]
      simp only [Option.some.injEq, Prod.mk.injEq]
      refine ⟨?_, trivial⟩
      omega
    · simp only [offsetPart, if_neg ho]
      show parseOffset ('+' :: _) = _
      rw [parseOffset]
      rw [show encodeFixed 2 (o.natAbs % 60) = encodeFixed 2 (o.natAbs % 60) ++ [] from
        (List.append_nil _).symm]
      simp only [decodeFixed_encodeFixed, Option.some_bind, Nat.zero_mul, Nat.zero_add,
        Nat.mod_eq_of_lt h60, Nat.mod_eq_of_lt h60m, expectChar_same]
      simp only [Option.some.injEq, Prod.mk.injEq]
      refine ⟨?_, trivial⟩
      omega

theorem parseFrac_fracPart (us : Nat) (off : Option Int) (hus : us < 10 ^ 6) :
    parseFrac (fracPart us ++ offsetPart off) = some (us, offsetPart off) := by
  by_cases h0 : us = 0
  · subst h0
    simp only [fracPart, if_pos rfl, List.nil_append]
    cases off with
    | none => rfl
    | some o =>
      simp only [offsetPart]
      by_cases ho : o < 0 <;> simp [ho, parseFrac]
  · have hstep : parseFrac (fracPart us ++ offsetPart off)
        = decodeFixed 6 0 (encodeFixed 6 us ++ offsetPart off) := by
      rw [fracPart, if_neg h0]
      rfl
    rw [hstep, decodeFixed_encodeFixed, Nat.mod_eq_of_lt hus]
    simp

set_option maxHeartbeats 2000000 in
/-- Serialize-then-parse round trip: `fromisoformat` recovers any valid
datetime from its `isoformat` rendering. -/
theorem fromisoformatList_isoformatList (d : Datetime) (h : d.validB = true) :
    fromisoformatList (isoformatList d) = some d := by
  obtain ⟨y, mo, dy, hh, mi, se, us, off⟩ := d
  have hB := h
  simp only [Datetime.validB, Bool.and_eq_true, decide_eq_true_eq] at h
  obtain ⟨⟨⟨⟨⟨⟨⟨⟨⟨⟨h1, h2⟩, h3⟩, h4⟩, h5⟩, h6⟩, h7⟩, h8⟩, h9⟩, h10⟩, h11⟩ := h
  have p4 : (10:Nat) ^ 4 = 10000 := by norm_num
  have p2 : (10:Nat) ^ 2 = 100 := by norm_num
  have p6 : (10:Nat) ^ 6 = 1000000 := by norm_num
  have hy : y < 10 ^ 4 := by omega
  have hmo : mo < 10 ^ 2 := by omega
  have hdy : dy < 10 ^ 2 := by
    have : daysInMonth y mo ≤ 31 := by
      unfold daysInMonth
      split
      · split <;> omega
      · split <;> omega
    omega
  have hhh : hh < 10 ^ 2 := by omega
  have hmi : mi < 10 ^ 2 := by omega
  have hse : se < 10 ^ 2 := by omega
  have hus : us < 10 ^ 6 := by omega
  have hfrac := parseFrac_fracPart us off hus
  have hoffp := parseOffset_offsetPart off h11
  simp only [isoformatList, fromisoformatList]
  simp only [decodeFixed_encodeFixed, Option.some_bind, expectChar_same, skipSep_cons]
  rw [hfrac]
  simp only [Option.some_bind]
  rw [hoffp]
  simp only [Option.some_bind]
  simp only [Nat.zero_mul, Nat.zero_add, Nat.mod_eq_of_lt hy, Nat.mod_eq_of_lt hmo,
    Nat.mod_eq_of_lt hdy, Nat.mod_eq_of_lt hhh, Nat.mod_eq_of_lt hmi, Nat.mod_eq_of_lt hse]
  rw [hB]
  simp

theorem isoformatList_ne_nil (d : Datetime) : isoformatList d ≠ [] := by
  simp only [isoformatList]
  rw [show encodeFixed 4 d.year
      = Char.ofNat (48 + d.year / 10 ^ 3 % 10) :: encodeFixed 3 d.year from rfl]
  simp

theorem isoformat_ne_empty (d : Datetime) : isoformat d ≠ "" := by
  intro h
  exact isoformatList_ne_nil d (congrArg String.data h)

theorem fromisoformat_isoformat (d : Datetime) (h : d.validB = true) :
    fromisoformat (isoformat d) = some d :=
  fromisoformatList_isoformatList d h

end PythonDockerOperator

namespace PythonDockerOperator

/-- Dynamically typed Python values that the code passes into `str(value)`:
`None`, strings, integers (connection ports), and datetimes (run-context
timestamps). -/
inductive PyVal where
  | none : PyVal
  | str : String → PyVal
  | int : Int → PyVal
  | dt : Datetime → PyVal
  deriving DecidableEq, Repr

/-- Python `str(value)` on the values above; `str` of a `None` field is the
string `None`, and `str` of an (aware, pendulum) datetime is its ISO-8601
`isoformat` rendering. -/
def pyStr : PyVal → String
  | .none => "None"
  | .str s => s
  | .int n => toString n
  | .dt d => isoformat d

/-- interface.py lines 38 to 40: `generate_env` returns the singleton dict
mapping the canonical name to `str(value)`. -/
def generate_env (i : EnvironmentInterface) (variable_name : String) (value : PyVal) : Dict :=
  [(env_name i variable_name, pyStr value)]

/-- interface.py lines 43 to 45: `ContextParam(Enum)`. -/
inductive ContextParam where
  | DATA_INTERVAL_START
  | DATA_INTERVAL_END
  deriving DecidableEq, Repr

/-- The Python enum member name (`ContextParam.DATA_INTERVAL_START.name`). -/
def ContextParam.name : ContextParam → String
  | .DATA_INTERVAL_START => "DATA_INTERVAL_START"
  | .DATA_INTERVAL_END => "DATA_INTERVAL_END"

/-- The Python enum member value, the key used into the Airflow run
context. -/
def ContextParam.value : ContextParam → String
  | .DATA_INTERVAL_START => "data_interval_start"
  | .DATA_INTERVAL_END => "data_interval_end"

/-- The Airflow run context, restricted to the two entries the code reads:
`context[data_interval_start]` and `context[data_interval_end]`, each a
timezone-aware (pendulum) datetime. -/
structure Context where
  data_interval_start : Datetime
  data_interval_end : Datetime
  deriving DecidableEq, Repr

/-- interface.py lines 48 to 52: `ContextInterface` sets `ENV_PREFIX` to
`AIRFLOW_CONTEXT` and `_env_middle` to `CONTEXT`. -/
def ContextInterface : EnvironmentInterface :=
  { ENV_PREFIX := "AIRFLOW_CONTEXT", env_middle := "CONTEXT" }

/-- interface.py lines 59 to 61: parse the environment variable with
`dt.datetime.fromisoformat(self.read_env(...))`. -/
def env_data_interval_start (environ : String → Option String) : Except PyError Datetime :=
  match read_env environ ContextInterface ContextParam.DATA_INTERVAL_START.name with
  | .error e => .error e
  | .ok s =>
    match fromisoformat s with
    | some d => .ok d
    | none => .error (.InvalidIsoformat s)

/-- interface.py lines 63 to 65: as `env_data_interval_start`, for the end
timestamp. -/
def env_data_interval_end (environ : String → Option String) : Except PyError Datetime :=
  match read_env environ ContextInterface ContextParam.DATA_INTERVAL_END.name with
  | .error e => .error e
  | .ok s =>
    match fromisoformat s with
    | some d => .ok d
    | none => .error (.InvalidIsoformat s)

/-- interface.py lines 67 to 69: `generate_env` of the start timestamp taken
from the bound run context (`with_context` binds it; here it is an
explicit argument). -/
def dict_data_interval_start (context : Context) : Dict :=
  generate_env ContextInterface ContextParam.DATA_INTERVAL_START.name
    (.dt context.data_interval_start)

/-- interface.py lines 71 to 73. -/
def dict_data_interval_end (context : Context) : Dict :=
  generate_env ContextInterface ContextParam.DATA_INTERVAL_END.name
    (.dt context.data_interval_end)

/-- interface.py lines 75 to 79: the dict-merge of the two timestamp
singletons. -/
def ContextInterface.dict_all (context : Context) : Dict :=
  Dict.merge (dict_data_interval_start context) (dict_data_interval_end context)

/-- interface.py lines 82 to 88: `ConnectionParam(Enum)`; `name` gives the
member names HOST, PORT, LOGIN, PASSWORD, SCHEMA, EXTRA. -/
inductive ConnectionParam where
  | HOST
  | PORT
  | LOGIN
  | PASSWORD
  | SCHEMA
  | EXTRA
  deriving DecidableEq, Repr

def ConnectionParam.name : ConnectionParam → String
  | .HOST => "HOST"
  | .PORT => "PORT"
  | .LOGIN => "LOGIN"
  | .PASSWORD => "PASSWORD"
  | .SCHEMA => "SCHEMA"
  | .EXTRA => "EXTRA"

/-- The fields of an Airflow `Connection` record that the code reads, as
dynamically typed values (any of them may be `None`; port is an int). -/
structure Connection where
  host : PyVal
  port : PyVal
  login : PyVal
  password : PyVal
  schema : PyVal
  extra : PyVal
  deriving DecidableEq, Repr

/-- interface.py lines 91 to 97: `ConnectionInterface` sets `ENV_PREFIX` to
`AIRFLOW_CONN` and `_env_middle` to the connection id. -/
def ConnectionInterface (connection_id : String) : EnvironmentInterface :=
  { ENV_PREFIX := "AIRFLOW_CONN", env_middle := connection_id }

/-- interface.py lines 128 to 150: the `dict_*` family; `cstore` models
`Connection.get_connection_from_secrets`. -/
def dict_host (cstore : String → Connection) (connection_id : String) : Dict :=
  generate_env (ConnectionInterface connection_id) ConnectionParam.HOST.name
    (cstore connection_id).host

def dict_port (cstore : String → Connection) (connection_id : String) : Dict :=
  generate_env (ConnectionInterface connection_id) ConnectionParam.PORT.name
    (cstore connection_id).port

def dict_login (cstore : String → Connection) (connection_id : String) : Dict :=
  generate_env (ConnectionInterface connection_id) ConnectionParam.LOGIN.name
    (cstore connection_id).login

def dict_password (cstore : String → Connection) (connection_id : String) : Dict :=
  generate_env (ConnectionInterface connection_id) ConnectionParam.PASSWORD.name
    (cstore connection_id).password

def dict_schema (cstore : String → Connection) (connection_id : String) : Dict :=
  generate_env (ConnectionInterface connection_id) ConnectionParam.SCHEMA.name
    (cstore connection_id).schema

def dict_extra (cstore : String → Connection) (connection_id : String) : Dict :=
  generate_env (ConnectionInterface connection_id) ConnectionParam.EXTRA.name
    (cstore connection_id).extra

/-- interface.py lines 152 to 161: the dict-merge of the six singletons. -/
def ConnectionInterface.dict_all (cstore : String → Connection) (connection_id : String) : Dict :=
  Dict.merge (Dict.merge (Dict.merge (Dict.merge (Dict.merge
    (dict_host cstore connection_id) (dict_port cstore connection_id))
    (dict_login cstore connection_id)) (dict_password cstore connection_id))
    (dict_schema cstore connection_id)) (dict_extra cstore connection_id)

/-- Modelled from the spec: `VariableInterface` is imported by `operator.py`
from `python_docker_operator.interface` but is not defined in the available
source of that module.  Spec section 4.4 says the named-variable provider
follows the same prefix/scope convention with the identifier of the
variable itself as scope; the concrete prefix string and the variable-name
segment are not fixed by the spec, so this model fixes them as
`AIRFLOW_VARIABLE` and `VALUE`. -/
def VariableInterface (variable_id : String) : EnvironmentInterface :=
  { ENV_PREFIX := "AIRFLOW_VARIABLE", env_middle := variable_id }

/-- Modelled from the spec (section 4.4): resolve the value of the variable
from an external key-value configuration store (`vstore`, modelling
Airflow Variable.get) and return it as a single-entry environment map
keyed under the identifier of the variable itself as scope. -/
def dict_variable (vstore : String → PyVal) (variable_id : String) : Dict :=
  generate_env (VariableInterface variable_id) "VALUE" (vstore variable_id)

/-- operator.py line 56: `list(filter(None, ...))` drops the falsy elements,
that is `None` and the empty string. -/
def filter_falsy (l : List (Option String)) : List (Option String) :=
  l.filter fun x => match x with
    | Option.none => false
    | some s => !(s == "")

/-- operator.py lines 55 to 58: the container command.  A Python list
holding strings or `None` is a `List (Option String)`.  When
`custom_cmd_args` is truthy (a non-empty list) the whole list
`[python, custom_file_path, *custom_cmd_args]` is filtered; when it is
`None` or the empty list the command is `[python, custom_file_path]`
unfiltered. -/
def build_command (custom_file_path : Option String) :
    Option (List (Option String)) → List (Option String)
  | some (a :: args) => filter_falsy (some "python" :: custom_file_path :: a :: args)
  | _ => [some "python", custom_file_path]

/-- operator.py lines 60 to 73: fold the `dict_all` of each connection id,
then the `dict_variable` of each variable id, into the environment kwarg
with the Python dict-merge.  `env0` is the caller-supplied `environment`
kwarg (`kwargs.get` defaults it to the empty dict); a `None` identifier
list is falsy in Python and contributes nothing, exactly like the empty
list, which is what `Option.getD` gives. -/
def build_environment (cstore : String → Connection) (vstore : String → PyVal)
    (env0 : Dict) (custom_connection_ids custom_variables : Option (List String)) : Dict :=
  let e1 := (custom_connection_ids.getD []).foldl
    (fun e cid => Dict.merge e (ConnectionInterface.dict_all cstore cid)) env0
  (custom_variables.getD []).foldl
    (fun e vid => Dict.merge e (dict_variable vstore vid)) e1

/-- operator.py lines 78 to 88: the execute override merges the run-context
entries into the already-built environment before delegating to the
launcher. -/
def execute_environment (environment : Dict) (context : Context) : Dict :=
  Dict.merge environment (ContextInterface.dict_all context)

/-- Concrete store and context used by the witnesses below. -/
def demoConnection : Connection :=
  { host := .str "localhost", port := .int 5432, login := .str "user",
    password := .str "pw", schema := .str "db", extra := .none }

def demoConnStore : String → Connection := fun _ => demoConnection

def demoVarStore : String → PyVal := fun _ => .str "42"

def demoContext : Context :=
  { data_interval_start := ⟨2024, 1, 15, 8, 0, 0, 0, some 0⟩,
    data_interval_end := ⟨2024, 1, 15, 9, 0, 0, 0, some 0⟩ }

end PythonDockerOperator

namespace PythonDockerOperator

/-- Strings starting with the connection prefix and the delimiter never
coincide with strings starting with the context prefix and the delimiter
(they differ at character index 11). -/
theorem prefix12_ne (r t : String) : "AIRFLOW_CONN" ++ r ≠ "AIRFLOW_CONTEXT" ++ t := by
  intro h
  have hd := congrArg String.data h
  rw [String.data_append, String.data_append] at hd
  have e1 : "AIRFLOW_CONN".data = ['A','I','R','F','L','O','W','_','C','O','N','N'] := rfl
  have e2 : "AIRFLOW_CONTEXT".data = ['A','I','R','F','L','O','W','_','C','O','N','T','E','X','T'] := rfl
  rw [e1, e2] at hd
  simp at hd

/-- Strings starting with the variable prefix never coincide with strings
starting with the context prefix (they differ at character index 8). -/
theorem prefixvar_ne (r t : String) : "AIRFLOW_VARIABLE" ++ r ≠ "AIRFLOW_CONTEXT" ++ t := by
  intro h
  have hd := congrArg String.data h
  rw [String.data_append, String.data_append] at hd
  have e1 : "AIRFLOW_VARIABLE".data = ['A','I','R','F','L','O','W','_','V','A','R','I','A','B','L','E'] := rfl
  have e2 : "AIRFLOW_CONTEXT".data = ['A','I','R','F','L','O','W','_','C','O','N','T','E','X','T'] := rfl
  rw [e1, e2] at hd
  simp at hd

/-- No canonical name of a connection scope equals a canonical name of the
context scope, whatever the connection id. -/
theorem conn_key_ne_context (cid pname v : String) :
    env_name (ConnectionInterface cid) pname ≠ env_name ContextInterface v := by
  rw [env_name_eq, env_name_eq]
  simp only [ConnectionInterface, ContextInterface, String.append_assoc]
  exact prefix12_ne _ _

/-- No canonical name of a variable scope equals a canonical name of the
context scope, whatever the variable id. -/
theorem var_key_ne_context (vid pname v : String) :
    env_name (VariableInterface vid) pname ≠ env_name ContextInterface v := by
  rw [env_name_eq, env_name_eq]
  simp only [VariableInterface, ContextInterface, String.append_assoc]
  exact prefixvar_ne _ _

theorem get_generate_conn_none (cid pname v : String) (pv : PyVal) :
    Dict.get (generate_env (ConnectionInterface cid) pname pv)
      (env_name ContextInterface v) = none := by
  show Dict.get [(env_name (ConnectionInterface cid) pname, pyStr pv)] _ = none
  rw [Dict.get_single]
  exact if_neg (conn_key_ne_context cid pname v)

theorem get_conn_dict_all_none (cstore : String → Connection) (cid v : String) :
    Dict.get (ConnectionInterface.dict_all cstore cid) (env_name ContextInterface v) = none := by
  unfold ConnectionInterface.dict_all
  refine Dict.get_merge_none _ _ _ (Dict.get_merge_none _ _ _ (Dict.get_merge_none _ _ _
    (Dict.get_merge_none _ _ _ (Dict.get_merge_none _ _ _ ?_ ?_) ?_) ?_) ?_) ?_
  all_goals apply get_generate_conn_none

theorem get_dict_variable_none (vstore : String → PyVal) (vid v : String) :
    Dict.get (dict_variable vstore vid) (env_name ContextInterface v) = none := by
  show Dict.get [(env_name (VariableInterface vid) "VALUE", pyStr (vstore vid))] _ = none
  rw [Dict.get_single]
  exact if_neg (var_key_ne_context vid "VALUE" v)

/-- With an empty initial environment kwarg, the build phase never produces
a context-scoped canonical name. -/
theorem build_environment_get_context_none (cstore : String → Connection)
    (vstore : String → PyVal) (cids vids : Option (List String)) (v : String) :
    Dict.get (build_environment cstore vstore [] cids vids)
      (env_name ContextInterface v) = none := by
  unfold build_environment
  apply foldl_merge_get_none _ _ (fun vid => get_dict_variable_none vstore vid v)
  apply foldl_merge_get_none _ _ (fun cid => get_conn_dict_all_none cstore cid v)
  rfl

theorem ctx_dict_all_get_start (context : Context) :
    Dict.get (ContextInterface.dict_all context)
      (env_name ContextInterface ContextParam.DATA_INTERVAL_START.name)
      = some (isoformat context.data_interval_start) := by
  show Dict.get (Dict.merge (dict_data_interval_start context) (dict_data_interval_end context))
    _ = _
  rw [Dict.get_merge]
  rw [show Dict.get (dict_data_interval_end context)
      (env_name ContextInterface ContextParam.DATA_INTERVAL_START.name) = none from by
    show Dict.get [(env_name ContextInterface ContextParam.DATA_INTERVAL_END.name,
      pyStr (.dt context.data_interval_end))] _ = none
    rw [Dict.get_single]
    exact if_neg (by decide)]
  exact Dict.get_singleton _ _

theorem ctx_dict_all_get_end (context : Context) :
    Dict.get (ContextInterface.dict_all context)
      (env_name ContextInterface ContextParam.DATA_INTERVAL_END.name)
      = some (isoformat context.data_interval_end) := by
  show Dict.get (Dict.merge (dict_data_interval_start context) (dict_data_interval_end context))
    _ = _
  rw [Dict.get_merge]
  rw [show Dict.get (dict_data_interval_end context)
      (env_name ContextInterface ContextParam.DATA_INTERVAL_END.name)
      = some (isoformat context.data_interval_end) from Dict.get_singleton _ _]

theorem ctx_dict_all_get_other (context : Context) (k : String)
    (hk1 : k ≠ env_name ContextInterface ContextParam.DATA_INTERVAL_START.name)
    (hk2 : k ≠ env_name ContextInterface ContextParam.DATA_INTERVAL_END.name) :
    Dict.get (ContextInterface.dict_all context) k = none := by
  show Dict.get (Dict.merge (dict_data_interval_start context) (dict_data_interval_end context))
    k = none
  apply Dict.get_merge_none
  · show Dict.get [(env_name ContextInterface ContextParam.DATA_INTERVAL_START.name,
      pyStr (.dt context.data_interval_start))] k = none
    rw [Dict.get_single]
    exact if_neg fun h => hk1 h.symm
  · show Dict.get [(env_name ContextInterface ContextParam.DATA_INTERVAL_END.name,
      pyStr (.dt context.data_interval_end))] k = none
    rw [Dict.get_single]
    exact if_neg fun h => hk2 h.symm

end PythonDockerOperator

namespace PythonDockerOperator

/-- C1: `env_name` is a pure function of (prefix, scope, variable); it
returns the prefix unchanged, then the upper-cased scope, then the
upper-cased variable name, joined with the fixed delimiter `__`; in
particular `env_name` of prefix `AIRFLOW_CONN`, scope `mydb`, variable
`host` is `AIRFLOW_CONN__MYDB__HOST`. -/
theorem c1_env_name_shape (p m v : String) :
    env_name ⟨p, m⟩ v = p ++ "__" ++ py_upper m ++ "__" ++ py_upper v ∧
    env_name ⟨"AIRFLOW_CONN", "mydb"⟩ "host" = "AIRFLOW_CONN__MYDB__HOST" :=
  ⟨env_name_eq ⟨p, m⟩ v, by decide⟩

/-- C2: whenever the canonical name of a variable is absent from the process
environment, `read_env` raises `MissingVariable` (naming the missing
canonical name) and returns no value. -/
theorem c2_read_env_absent (environ : String → Option String)
    (i : EnvironmentInterface) (v : String)
    (h : environ (env_name i v) = none) :
    read_env environ i v = .error (.MissingVariable (env_name i v)) := by
  unfold read_env
  rw [h]

theorem c2_read_env_absent_witness :
    ((fun _ : String => (none : Option String)) (env_name ⟨"AIRFLOW_CONN", "mydb"⟩ "host") = none) ∧
    read_env (fun _ => none) ⟨"AIRFLOW_CONN", "mydb"⟩ "host" =
      .error (.MissingVariable (env_name ⟨"AIRFLOW_CONN", "mydb"⟩ "host")) :=
  ⟨rfl, c2_read_env_absent (fun _ => none) ⟨"AIRFLOW_CONN", "mydb"⟩ "host" rfl⟩

/-- C3 counterexample: the canonical name `AIRFLOW_CONTEXT__CONTEXT__FOO` is
present in the environment with value `""`, yet `read_env` does not return
`""`: Python `if env:` treats the empty string as falsy and raises, so
presence with an arbitrary string value does NOT guarantee success. -/
theorem c3_counterexample :
    (fun k => if k = "AIRFLOW_CONTEXT__CONTEXT__FOO" then some "" else none)
        (env_name ⟨"AIRFLOW_CONTEXT", "CONTEXT"⟩ "foo") = some "" ∧
    read_env (fun k => if k = "AIRFLOW_CONTEXT__CONTEXT__FOO" then some "" else none)
        ⟨"AIRFLOW_CONTEXT", "CONTEXT"⟩ "foo" =
      .error (.MissingVariable "AIRFLOW_CONTEXT__CONTEXT__FOO") ∧
    read_env (fun k => if k = "AIRFLOW_CONTEXT__CONTEXT__FOO" then some "" else none)
        ⟨"AIRFLOW_CONTEXT", "CONTEXT"⟩ "foo" ≠ .ok "" := by
  refine ⟨rfl, rfl, fun h => ?_⟩
  have e : read_env (fun k => if k = "AIRFLOW_CONTEXT__CONTEXT__FOO" then some "" else none)
      ⟨"AIRFLOW_CONTEXT", "CONTEXT"⟩ "foo" =
      .error (.MissingVariable "AIRFLOW_CONTEXT__CONTEXT__FOO") := rfl
  rw [e] at h
  simp at h

/-- C3 (amended): whenever the canonical name is present in the process
environment with a NON-EMPTY string value, `read_env` succeeds and returns
that raw string unchanged; absence and a present-but-empty value are the
only error conditions (an empty value is treated as missing). -/
theorem c3_read_env_present (environ : String → Option String)
    (i : EnvironmentInterface) (v s : String)
    (hp : environ (env_name i v) = some s) (hne : s ≠ "") :
    read_env environ i v = .ok s :=
  read_env_some environ i v s hp hne

theorem c3_read_env_present_witness :
    ((fun _ : String => some "localhost") (env_name ⟨"AIRFLOW_CONN", "mydb"⟩ "host") = some "localhost") ∧
    ("localhost" ≠ "") ∧
    read_env (fun _ => some "localhost") ⟨"AIRFLOW_CONN", "mydb"⟩ "host" = .ok "localhost" :=
  ⟨rfl, by decide,
    c3_read_env_present (fun _ => some "localhost") ⟨"AIRFLOW_CONN", "mydb"⟩ "host"
      "localhost" rfl (by decide)⟩

/-- C4: for every run context with valid timestamps, serializing via the
build-phase providers (`dict_data_interval_start` / `dict_data_interval_end`,
which `generate_env` the `str()` of the timestamp), injecting the produced
entry into a process environment, and reading back through the run-phase
accessors (`env_data_interval_start` / `env_data_interval_end`, which parse
with `datetime.fromisoformat`) returns the original timestamp unchanged. -/
theorem c4_timestamp_roundtrip (context : Context)
    (hs : context.data_interval_start.validB = true)
    (he : context.data_interval_end.validB = true) :
    env_data_interval_start (Dict.get (dict_data_interval_start context))
      = .ok context.data_interval_start ∧
    env_data_interval_end (Dict.get (dict_data_interval_end context))
      = .ok context.data_interval_end := by
  constructor
  · have h1 : read_env (Dict.get (dict_data_interval_start context)) ContextInterface
        ContextParam.DATA_INTERVAL_START.name = .ok (isoformat context.data_interval_start) :=
      read_env_some _ _ _ _ (Dict.get_singleton _ _) (isoformat_ne_empty _)
    unfold env_data_interval_start
    rw [h1]
    simp only [fromisoformat_isoformat _ hs]
  · have h1 : read_env (Dict.get (dict_data_interval_end context)) ContextInterface
        ContextParam.DATA_INTERVAL_END.name = .ok (isoformat context.data_interval_end) :=
      read_env_some _ _ _ _ (Dict.get_singleton _ _) (isoformat_ne_empty _)
    unfold env_data_interval_end
    rw [h1]
    simp only [fromisoformat_isoformat _ he]

theorem c4_timestamp_roundtrip_witness :
    (demoContext.data_interval_start.validB = true) ∧
    (demoContext.data_interval_end.validB = true) ∧
    (env_data_interval_start (Dict.get (dict_data_interval_start demoContext))
        = .ok demoContext.data_interval_start ∧
      env_data_interval_end (Dict.get (dict_data_interval_end demoContext))
        = .ok demoContext.data_interval_end) :=
  ⟨by decide, by decide, c4_timestamp_roundtrip demoContext (by decide) (by decide)⟩

/-- C5: merging two environment maps with the Python dict-merge `{**a, **b}`
(the operation the operator uses to fold provider outputs into the
environment kwarg) is last-write-wins: if the later map `b` binds a
canonical name, the merged map holds the value from `b` for it. -/
theorem c5_merge_last_write_wins (a b : Dict) (k : String)
    (h : (Dict.get b k).isSome) :
    Dict.get (Dict.merge a b) k = Dict.get b k :=
  Dict.get_append_isSome a b k h

theorem c5_merge_last_write_wins_witness :
    (Dict.get [("X", "2")] "X").isSome = true ∧
    Dict.get (Dict.merge [("X", "1")] [("X", "2")]) "X" = Dict.get [("X", "2")] "X" ∧
    Dict.get (Dict.merge [("X", "1")] [("X", "2")]) "X" = some "2" := by
  refine ⟨by decide, c5_merge_last_write_wins [("X", "1")] [("X", "2")] "X" (by decide), by decide⟩

end PythonDockerOperator

namespace PythonDockerOperator

/-- C6: with an empty initial environment kwarg, the two context-scoped
timestamp canonical names are absent from the build-phase environment map
(whatever connection and variable identifier lists were merged); the
execute phase is exactly the dict-merge of the run-context two-entry map
into the built map; immediately after it both canonical names are present,
bound to ISO-8601 strings that `fromisoformat` parses back to the original
run-context timestamps; and every other key is left unchanged. -/
theorem c6_execute_phase_frame (cstore : String → Connection) (vstore : String → PyVal)
    (conn_ids var_ids : Option (List String)) (context : Context) (k : String)
    (hs : context.data_interval_start.validB = true)
    (he : context.data_interval_end.validB = true)
    (hk1 : k ≠ env_name ContextInterface ContextParam.DATA_INTERVAL_START.name)
    (hk2 : k ≠ env_name ContextInterface ContextParam.DATA_INTERVAL_END.name) :
    Dict.get (build_environment cstore vstore [] conn_ids var_ids)
        (env_name ContextInterface ContextParam.DATA_INTERVAL_START.name) = none ∧
    Dict.get (build_environment cstore vstore [] conn_ids var_ids)
        (env_name ContextInterface ContextParam.DATA_INTERVAL_END.name) = none ∧
    execute_environment (build_environment cstore vstore [] conn_ids var_ids) context
      = Dict.merge (build_environment cstore vstore [] conn_ids var_ids)
          (ContextInterface.dict_all context) ∧
    Dict.get (execute_environment (build_environment cstore vstore [] conn_ids var_ids) context)
        (env_name ContextInterface ContextParam.DATA_INTERVAL_START.name)
      = some (isoformat context.data_interval_start) ∧
    fromisoformat (isoformat context.data_interval_start) = some context.data_interval_start ∧
    Dict.get (execute_environment (build_environment cstore vstore [] conn_ids var_ids) context)
        (env_name ContextInterface ContextParam.DATA_INTERVAL_END.name)
      = some (isoformat context.data_interval_end) ∧
    fromisoformat (isoformat context.data_interval_end) = some context.data_interval_end ∧
    Dict.get (execute_environment (build_environment cstore vstore [] conn_ids var_ids) context) k
      = Dict.get (build_environment cstore vstore [] conn_ids var_ids) k := by
  refine ⟨build_environment_get_context_none cstore vstore conn_ids var_ids _,
    build_environment_get_context_none cstore vstore conn_ids var_ids _,
    rfl, ?_, fromisoformat_isoformat _ hs, ?_, fromisoformat_isoformat _ he, ?_⟩
  · unfold execute_environment
    rw [Dict.get_merge, ctx_dict_all_get_start]
  · unfold execute_environment
    rw [Dict.get_merge, ctx_dict_all_get_end]
  · unfold execute_environment
    rw [Dict.get_merge, ctx_dict_all_get_other context k hk1 hk2]

theorem c6_execute_phase_frame_witness :
    (demoContext.data_interval_start.validB = true) ∧
    (demoContext.data_interval_end.validB = true) ∧
    ("OTHER" ≠ env_name ContextInterface ContextParam.DATA_INTERVAL_START.name) ∧
    ("OTHER" ≠ env_name ContextInterface ContextParam.DATA_INTERVAL_END.name) ∧
    (Dict.get (build_environment demoConnStore demoVarStore [] (some ["mydb"]) (some ["myvar"]))
        (env_name ContextInterface ContextParam.DATA_INTERVAL_START.name) = none ∧
    Dict.get (build_environment demoConnStore demoVarStore [] (some ["mydb"]) (some ["myvar"]))
        (env_name ContextInterface ContextParam.DATA_INTERVAL_END.name) = none ∧
    execute_environment
        (build_environment demoConnStore demoVarStore [] (some ["mydb"]) (some ["myvar"]))
        demoContext
      = Dict.merge
          (build_environment demoConnStore demoVarStore [] (some ["mydb"]) (some ["myvar"]))
          (ContextInterface.dict_all demoContext) ∧
    Dict.get (execute_environment
          (build_environment demoConnStore demoVarStore [] (some ["mydb"]) (some ["myvar"]))
          demoContext)
        (env_name ContextInterface ContextParam.DATA_INTERVAL_START.name)
      = some (isoformat demoContext.data_interval_start) ∧
    fromisoformat (isoformat demoContext.data_interval_start)
      = some demoContext.data_interval_start ∧
    Dict.get (execute_environment
          (build_environment demoConnStore demoVarStore [] (some ["mydb"]) (some ["myvar"]))
          demoContext)
        (env_name ContextInterface ContextParam.DATA_INTERVAL_END.name)
      = some (isoformat demoContext.data_interval_end) ∧
    fromisoformat (isoformat demoContext.data_interval_end)
      = some demoContext.data_interval_end ∧
    Dict.get (execute_environment
          (build_environment demoConnStore demoVarStore [] (some ["mydb"]) (some ["myvar"]))
          demoContext) "OTHER"
      = Dict.get (build_environment demoConnStore demoVarStore [] (some ["mydb"]) (some ["myvar"]))
          "OTHER") :=
  ⟨by decide, by decide, by decide, by decide,
    c6_execute_phase_frame demoConnStore demoVarStore (some ["mydb"]) (some ["myvar"])
      demoContext "OTHER" (by decide) (by decide) (by decide) (by decide)⟩

/-- C7 counterexample: with script path `None` and extra-argument list `[]`,
the command is `[python, None]`: the falsy placeholder is NOT dropped,
while the claim as stated (concatenate then drop falsy entries, for every
script path and extra-argument list) predicts the filtered `[python]`. -/
theorem c7_counterexample :
    build_command none (some ([] : List (Option String))) = [some "python", none] ∧
    filter_falsy (some "python" :: none :: ([] : List (Option String))) = [some "python"] ∧
    build_command none (some ([] : List (Option String)))
      ≠ filter_falsy (some "python" :: none :: ([] : List (Option String))) := by
  exact ⟨rfl, rfl, by decide⟩

/-- C7 (amended): when a NON-EMPTY extra-argument list is provided, the
command is the concatenation of the fixed interpreter invocation `python`,
the script path and the arguments, with falsy entries (`None` and empty
strings) dropped; in particular for script path `run.py` and arguments
`[--a, None, --b]` it is `[python, run.py, --a, --b]`.  (When the argument
list is empty or absent the command is built without any filtering: see
C9.) -/
theorem c7_command_filter (fp : Option String) (args : List (Option String))
    (h : args ≠ []) :
    build_command fp (some args) = filter_falsy (some "python" :: fp :: args) ∧
    build_command (some "run.py") (some [some "--a", none, some "--b"])
      = [some "python", some "run.py", some "--a", some "--b"] := by
  cases args with
  | nil => exact absurd rfl h
  | cons a as => exact ⟨rfl, by decide⟩

theorem c7_command_filter_witness :
    ([some "--a", none, some "--b"] ≠ ([] : List (Option String))) ∧
    (build_command (some "run.py") (some [some "--a", none, some "--b"])
        = filter_falsy (some "python" :: some "run.py" :: [some "--a", none, some "--b"]) ∧
      build_command (some "run.py") (some [some "--a", none, some "--b"])
        = [some "python", some "run.py", some "--a", some "--b"]) :=
  ⟨by decide,
    c7_command_filter (some "run.py") [some "--a", none, some "--b"] (by decide)⟩

/-- C8 (spec-modelled provider): for every variable store and identifier,
`dict_variable` is a single-entry environment map; its one key is the
canonical name built with the identifier of the variable itself as scope,
and its value is the value resolved from the external key-value store. -/
theorem c8_dict_variable_single_entry (vstore : String → PyVal) (vid : String) :
    dict_variable vstore vid
      = [(env_name (VariableInterface vid) "VALUE", pyStr (vstore vid))] ∧
    env_name (VariableInterface vid) "VALUE"
      = "AIRFLOW_VARIABLE" ++ "__" ++ py_upper vid ++ "__" ++ "VALUE" ∧
    (dict_variable vstore vid).length = 1 ∧
    Dict.get (dict_variable vstore vid) (env_name (VariableInterface vid) "VALUE")
      = some (pyStr (vstore vid)) := by
  refine ⟨rfl, ?_, rfl, Dict.get_singleton _ _⟩
  rw [env_name_eq]
  rfl

/-- C9: when the extra-argument list is `None` or the empty list, the
command is exactly `[python, script_path]` with no falsy-filtering
applied; in particular with the script path also unset the command still
has length two and keeps `None` as its second element instead of being
filtered down to `[python]`. -/
theorem c9_command_unfiltered (fp : Option String) :
    build_command fp none = [some "python", fp] ∧
    build_command fp (some []) = [some "python", fp] ∧
    build_command none none = [some "python", none] ∧
    (build_command none none).length = 2 ∧
    (build_command none none).get? 1 = some none :=
  ⟨rfl, rfl, rfl, rfl, rfl⟩

/-- C10: the build phase merges all entries from the connection-identifier
list before any entry from the variable-identifier list — the built map is
the initial kwarg, then the flattened connection outputs, then the
flattened variable outputs — and therefore on any canonical-name collision
the variable-provider value is the one held by the final build-phase
map. -/
theorem c10_connections_before_variables (cstore : String → Connection)
    (vstore : String → PyVal) (env0 : Dict) (cids vids : List String) (k : String)
    (hvar : (Dict.get ((vids.map (dict_variable vstore)).flatten) k).isSome) :
    build_environment cstore vstore env0 (some cids) (some vids)
      = (env0 ++ (cids.map (ConnectionInterface.dict_all cstore)).flatten)
        ++ (vids.map (dict_variable vstore)).flatten ∧
    Dict.get (build_environment cstore vstore env0 (some cids) (some vids)) k
      = Dict.get ((vids.map (dict_variable vstore)).flatten) k := by
  have hshape : build_environment cstore vstore env0 (some cids) (some vids)
      = (env0 ++ (cids.map (ConnectionInterface.dict_all cstore)).flatten)
        ++ (vids.map (dict_variable vstore)).flatten := by
    unfold build_environment
    simp only [Option.getD_some]
    rw [foldl_merge_eq_append, foldl_merge_eq_append]
  refine ⟨hshape, ?_⟩
  rw [hshape]
  exact Dict.get_append_isSome _ _ _ hvar

theorem c10_connections_before_variables_witness :
    ((Dict.get ((["myvar"].map (dict_variable demoVarStore)).flatten)
        (env_name (VariableInterface "myvar") "VALUE")).isSome = true) ∧
    (build_environment demoConnStore demoVarStore [] (some ["mydb"]) (some ["myvar"])
        = (([] : Dict) ++ ((["mydb"].map (ConnectionInterface.dict_all demoConnStore)).flatten))
          ++ ((["myvar"].map (dict_variable demoVarStore)).flatten) ∧
      Dict.get (build_environment demoConnStore demoVarStore [] (some ["mydb"]) (some ["myvar"]))
          (env_name (VariableInterface "myvar") "VALUE")
        = Dict.get ((["myvar"].map (dict_variable demoVarStore)).flatten)
            (env_name (VariableInterface "myvar") "VALUE")) :=
  ⟨by decide,
    c10_connections_before_variables demoConnStore demoVarStore [] ["mydb"] ["myvar"]
      (env_name (VariableInterface "myvar") "VALUE") (by decide)⟩

end PythonDockerOperator
